import Mathlib

/-!
Verification development for the DA teaching notebook `Control_DA_components.ipynb`.

The notebook wires together numerical helper routines from the `tools` package
(model integration, covariance estimation, observation generation, plotting).
The helper routines themselves are not part of this repository's sources, so they
are modelled here from the specification's description of them; the notebook's
own cells (parameter assignments, call sequence, dataflow) are embedded directly.
Exact rational arithmetic (`ℚ`) stands in for Python floating point, with `ℝ`
used only where square roots are taken.
-/

namespace DA

/-- A state vector of the n-variable Lorenz 96 system. -/
abbrev Vec (n : ℕ) := Fin n → ℚ

/-- Right-hand side of the Lorenz 96 equations, as displayed in the notebook:
dx_i/dt = (x_(i+1) - x_(i-2)) * x_(i-1) - x_i + F, with cyclic indices. -/
def lorenz96rhs {n : ℕ} [NeZero n] (F : ℚ) (x : Vec n) : Vec n :=
  fun i => (x (i + 1) - x (i - 2)) * x (i - 1) - x i + F

/-- One fourth-order Runge-Kutta step of the Lorenz 96 model. -/
def rk4Step {n : ℕ} [NeZero n] (F dt : ℚ) (x : Vec n) : Vec n :=
  let k1 := lorenz96rhs F x
  let k2 := lorenz96rhs F (fun i => x i + dt / 2 * k1 i)
  let k3 := lorenz96rhs F (fun i => x i + dt / 2 * k2 i)
  let k4 := lorenz96rhs F (fun i => x i + dt * k3 i)
  fun i => x i + dt / 6 * (k1 i + 2 * k2 i + 2 * k3 i + k4 i)

/-- Number of model time steps covering the interval [0, tf] at step deltat. -/
def natSteps (tf deltat : ℚ) : ℕ := Int.toNat ⌊tf / deltat⌋

/-- Modelled from the spec: `tools.L96_model.lorenz96` is not among this
repository's sources.  The spec describes it as a Runge-Kutta-like integrator of
the Lorenz 96 equations that discards a number of initial spin-up steps and
returns the subsequent trajectory.  `lorenz96 x0 tf deltat discard F k` is the
state k steps after spin-up; the final time `tf` fixes how many steps
(`natSteps tf deltat`) of the returned trajectory the notebook uses. -/
def lorenz96 {n : ℕ} [NeZero n] (x0 : Vec n) (tf deltat : ℚ) (discard : ℕ)
    (F : ℚ) : ℕ → Vec n :=
  fun k => (rk4Step F deltat)^[discard + k] x0

/-- Directional derivative of `lorenz96rhs` at state x in direction dx
(the forcing term F drops out under differentiation). -/
def lorenz96jac {n : ℕ} [NeZero n] (x dx : Vec n) : Vec n :=
  fun i => (dx (i + 1) - dx (i - 2)) * x (i - 1)
    + (x (i + 1) - x (i - 2)) * dx (i - 1) - dx i

/-- One step of the tangent-linear model: the derivative of `rk4Step` at the
nonlinear state x, applied to the increment dx. -/
def tlStep {n : ℕ} [NeZero n] (F dt : ℚ) (x dx : Vec n) : Vec n :=
  let k1 := lorenz96rhs F x
  let k2 := lorenz96rhs F (fun i => x i + dt / 2 * k1 i)
  let k3 := lorenz96rhs F (fun i => x i + dt / 2 * k2 i)
  let l1 := lorenz96jac x dx
  let l2 := lorenz96jac (fun i => x i + dt / 2 * k1 i) (fun i => dx i + dt / 2 * l1 i)
  let l3 := lorenz96jac (fun i => x i + dt / 2 * k2 i) (fun i => dx i + dt / 2 * l2 i)
  let l4 := lorenz96jac (fun i => x i + dt * k3 i) (fun i => dx i + dt * l3 i)
  fun i => dx i + dt / 6 * (l1 i + 2 * l2 i + 2 * l3 i + l4 i)

/-- Modelled from the spec: the tangent-linear model trajectory TL(dx0, k),
evolving the increment dx0 along the nonlinear trajectory started at x0. -/
def tlTraj {n : ℕ} [NeZero n] (x0 dx0 : Vec n) (F dt : ℚ) : ℕ → Vec n
  | 0 => dx0
  | k + 1 => tlStep F dt ((rk4Step F dt)^[k] x0) (tlTraj x0 dx0 F dt k)

/-- Sum of squared components of a rational vector. -/
def sumSq {n : ℕ} (v : Fin n → ℚ) : ℚ := ∑ i, v i ^ 2

/-- The L2 (Euclidean) norm of a rational vector, as a real number. -/
noncomputable def l2norm {n : ℕ} (v : Fin n → ℚ) : ℝ :=
  Real.sqrt ((sumSq v : ℚ) : ℝ)

/-- Modelled from the spec: `tools.diag.compute_lin_error` is not among this
repository's sources.  Following the notebook's formula, it returns the
linearisation error lin_error(t) = ||NL(x+Dx,t) - NL(x,t) - TL(Dx,t)||
together with the nonlinear difference NLdiff of two `lorenz96` runs initially
separated by Delta_x and the tangent-linear evolution TLdiff of Delta_x. -/
noncomputable def compute_lin_error {n : ℕ} [NeZero n] (Delta_x x : Vec n)
    (F lin_t deltat : ℚ) : (ℕ → ℝ) × (ℕ → Vec n) × (ℕ → Vec n) :=
  let NLpert := lorenz96 (fun j => x j + Delta_x j) lin_t deltat 0 F
  let NLref := lorenz96 x lin_t deltat 0 F
  let NLd : ℕ → Vec n := fun k i => NLpert k i - NLref k i
  let TLd : ℕ → Vec n := tlTraj x Delta_x F deltat
  (fun k => l2norm (fun i => NLd k i - TLd k i), NLd, TLd)

/-- Sample mean of m sample vectors. -/
noncomputable def sampleMean {n : ℕ} (m : ℕ) (e : ℕ → Fin n → ℝ) : Fin n → ℝ :=
  fun i => (∑ k ∈ Finset.range m, e k i) / m

/-- Unbiased sample covariance (normalisation by m - 1) of m sample vectors. -/
noncomputable def sampleCov {n : ℕ} (m : ℕ) (e : ℕ → Fin n → ℝ) :
    Fin n → Fin n → ℝ :=
  fun i j => (∑ k ∈ Finset.range m,
    (e k i - sampleMean m e i) * (e k j - sampleMean m e j)) / ((m : ℝ) - 1)

/-- Largest diagonal entry of a covariance matrix (used only for the optional
max_var rescaling, which the notebook disables by passing None). -/
noncomputable def maxDiag {n : ℕ} (B : Fin n → Fin n → ℝ) : ℝ := ⨆ i, B i i

/-- Modelled from the spec: `tools.cov.getBcanadian` is not among this
repository's sources.  Following the notebook's description of the Canadian
Quick method, it forms the lagged differences eps_k = (x(k+lag) - x(k))/sqrt 2
of the single forecast trajectory xB and returns their sample covariance B,
optionally rescaled to a maximum variance, together with the correlation
matrix Bcorr derived from B. -/
noncomputable def getBcanadian {n : ℕ} (xB : ℕ → Vec n) (lag : ℕ)
    (max_var : Option ℚ) (sample_size : ℕ) :
    (Fin n → Fin n → ℝ) × (Fin n → Fin n → ℝ) :=
  let eps : ℕ → Fin n → ℝ := fun k i =>
    ((xB (k + lag) i - xB k i : ℚ) : ℝ) / Real.sqrt 2
  let B0 := sampleCov sample_size eps
  let B := match max_var with
    | none => B0
    | some m => fun i j => ((m : ℝ) / maxDiag B0) * B0 i j
  (B, fun i j => B i j / Real.sqrt (B i i * B j j))

/-- Exact-arithmetic model of numpy's arange: the values start, start + step,
start + 2*step, ..., strictly below stop; the element count is
ceil((stop - start) / step), as in numpy's documentation. -/
def arange (start stop step : ℚ) : List ℚ :=
  (List.range (Int.toNat ⌈(stop - start) / step⌉)).map
    (fun i : ℕ => start + (i : ℚ) * step)

/-- The five observation-grid options accepted by createH; `g1010` embeds the
source's string option '1010' (idents cannot start with a digit). -/
inductive Obsgrid
  | all
  | g1010
  | landsea
  | foot_cent
  | foot_6
  deriving DecidableEq

/-- Cyclic distance between grid points a and b on an n-point circle. -/
def circDist (n a b : ℕ) : ℕ := min ((a + n - b) % n) ((b + n - a) % n)

/-- Modelled from the spec: a truncated-Gaussian-shaped footprint weight; the
source's exact Gaussian width is not given, so a rational kernel of the same
truncated bell shape is used (claims never inspect the weight values). -/
def truncGaussWeight (halfwidth d : ℕ) : ℚ :=
  if d ≤ halfwidth then (1 / 2) ^ (d ^ 2) else 0

/-- Row of a footprint observation operator: normalised truncated-Gaussian
weights centred at a given grid point. -/
def footRow (n center halfwidth : ℕ) : Fin n → ℚ := fun i =>
  truncGaussWeight halfwidth (circDist n (i : ℕ) center)
    / (∑ i2 : Fin n, truncGaussWeight halfwidth (circDist n (i2 : ℕ) center))

/-- Modelled from the spec: `tools.obs.createH` is not among this repository's
sources.  Following the notebook's description of the five options: 'all'
observes every variable (p = n), '1010' every other variable (p = n/2),
'landsea' half the domain (p = n/2), 'foot_cent' one footprint observation at
the domain centre (p = 1), and 'foot_6' six equally distributed footprint
observations whose width is governed by footprint (p = 6).  It returns the
number of observations p and the observation operator matrix H. -/
def createH (obsgrid : Obsgrid) (n footprint : ℕ) :
    (p : ℕ) × (Fin p → Fin n → ℚ) :=
  match obsgrid with
  | .all => ⟨n, fun j i => if (j : ℕ) = (i : ℕ) then 1 else 0⟩
  | .g1010 => ⟨n / 2, fun j i => if (i : ℕ) = 2 * (j : ℕ) then 1 else 0⟩
  | .landsea => ⟨n / 2, fun j i => if (i : ℕ) = (j : ℕ) then 1 else 0⟩
  | .foot_cent => ⟨1, fun _ i => footRow n (n / 2) 2 i⟩
  | .foot_6 => ⟨6, fun j i => footRow n ((j : ℕ) * (n / 6)) ((footprint - 1) / 2) i⟩

/-- Indices into the time array at which observations are taken: every
period_obs-th model step, the initial time excluded. -/
def obsIndices (nt period_obs : ℕ) : List ℕ :=
  (List.range nt).filter (fun i => i % period_obs == 0 && i != 0)

/-- A linear congruential step, the deterministic core of the modelled
seeded random number generator. -/
def lcg (s : ℕ) : ℕ := (1103515245 * s + 12345) % 2 ^ 31

/-- Modelled from the spec: a seeded pseudo-random observation-error draw with
variance parameter var; the spec fixes no distribution, only that the noise is
reproducible from the seed, which this deterministic model captures. -/
def noiseSample (seed idx : ℕ) (var : ℚ) : ℚ :=
  var * (((lcg^[idx + 1] seed % 201 : ℕ) : ℚ) - 100) / 100

/-- Modelled from the spec: `tools.obs.gen_obs` is not among this repository's
sources.  Following the notebook's description, it selects the observation
times (every period_obs steps), maps the truth trajectory to observation space
with the single operator H at every observation time, perturbs with seeded
noise of variance var_obs, and returns the observation times tobs, the
observations y and the observation-error covariance R = var_obs * I. -/
def gen_obs {n p : ℕ} (t : List ℚ) (xtrue : ℕ → Vec n) (period_obs : ℕ)
    (H : Fin p → Fin n → ℚ) (var_obs : ℚ) (seed : ℕ) :
    List ℚ × (ℕ → Fin p → ℚ) × (Fin p → Fin p → ℚ) :=
  let idxs := obsIndices t.length period_obs
  let tobs := idxs.map (fun i => t.getD i 0)
  let y : ℕ → Fin p → ℚ := fun k j =>
    (∑ i, H j i * xtrue (idxs.getD k 0) i)
      + noiseSample seed (k * p + (j : ℕ)) var_obs
  (tobs, y, fun j j2 => if j = j2 then var_obs else 0)

/-! Syntactic model of the notebook: its Python-level variables, the functions
it calls from the `tools` package, and its statements in source order, each
with the variables it reads and writes and its externally visible effects.
This transcription is the embedding used by the pipeline/dataflow claims. -/

/-- The Python variables assigned in the notebook's code cells. -/
inductive PyVar
  | n | F | deltat | tf | t | x0 | discard | xtrue
  | n_sample | sample_t0 | lin_t | prop_sample | times | var1D | vars2D
  | Delta_x | lin_error | NLdiff | TLdiff
  | lag | max_var | sample_size | xB | B | Bcorr | mycmap | vs
  | obsgrid | period_obs | var_obs | seed | footprint | p | H | tobs | y | R
  deriving DecidableEq

/-- The functions the notebook imports from the `tools` package. -/
inductive PyFunc
  | lorenz96 | createH | gen_obs | getBcanadian | compute_lin_error
  | plotL96 | plotL96obs | plotL96_Linerr | plotH | tileplotB
  | plotUniDensities | plotMultiDensities
  deriving DecidableEq

/-- Classification of a notebook statement. -/
inductive StmtKind
  | shell       -- an IPython shell escape or magic (!git clone, %cd)
  | importStmt  -- a Python import
  | assign      -- a parameter or array-setup assignment
  | callAssign  -- an assignment whose right-hand side calls a tools function
  | plotCall    -- a call to a tools.plots function
  | funcDef     -- a function definition (no notebook statement has this kind)
  deriving DecidableEq

/-- A notebook statement: its kind, the tools function it calls (if any), the
notebook variables it reads and writes, the index of the ipynb cell holding it,
and whether it touches the network, the file system, concurrency, or
failure-recovery constructs. -/
structure Stmt where
  kind : StmtKind
  func : Option PyFunc
  reads : List PyVar
  writes : List PyVar
  cell : ℕ
  usesNetwork : Bool
  writesFilesystem : Bool
  spawnsConcurrency : Bool
  handlesFailures : Bool
  deriving DecidableEq

/-- A shell-escape statement with the given network / file-system effects. -/
def shellS (cell : ℕ) (net fs : Bool) : Stmt :=
  ⟨.shell, none, [], [], cell, net, fs, false, false⟩

/-- An import statement. -/
def importS (cell : ℕ) : Stmt :=
  ⟨.importStmt, none, [], [], cell, false, false, false, false⟩

/-- A plain assignment reading rs and writing ws. -/
def assignS (cell : ℕ) (rs ws : List PyVar) : Stmt :=
  ⟨.assign, none, rs, ws, cell, false, false, false, false⟩

/-- An assignment whose right-hand side calls the tools function f. -/
def callS (cell : ℕ) (f : PyFunc) (rs ws : List PyVar) : Stmt :=
  ⟨.callAssign, some f, rs, ws, cell, false, false, false, false⟩

/-- A call to a tools.plots plotting function. -/
def plotS (cell : ℕ) (f : PyFunc) (rs : List PyVar) : Stmt :=
  ⟨.plotCall, some f, rs, [], cell, false, false, false, false⟩

/-- The notebook's statements, in source order.  Cell numbers are the indices
of the containing cells in the ipynb file (cells 1, 3, 5, 7, 9, 11, 13, 16 and
20 are the non-empty code cells). -/
def notebookStmts : List Stmt := [
  -- cell 1: !git clone https://github.com/darc-reading/darc-training-2025.git
  shellS 1 true true,
  -- cell 1: %cd darc-training-2025
  shellS 1 false false,
  -- cell 3: import numpy as np
  importS 3,
  -- cell 3: from tools.L96_model import lorenz96
  importS 3,
  -- cell 3: from tools.obs import createH, gen_obs
  importS 3,
  -- cell 3: from tools.cov import getBcanadian
  importS 3,
  -- cell 3: from tools.plots import plotL96, plotL96obs, plotL96_Linerr, ...
  importS 3,
  -- cell 3: from tools.diag import compute_lin_error
  importS 3,
  -- cell 5: n = 12
  assignS 5 [] [.n],
  -- cell 5: F = 8.0
  assignS 5 [] [.F],
  -- cell 5: deltat = 0.025
  assignS 5 [] [.deltat],
  -- cell 5: tf = 5.0
  assignS 5 [] [.tf],
  -- cell 5: t = np.arange(0.0, tf+deltat/2, deltat)
  assignS 5 [.tf, .deltat] [.t],
  -- cell 5: x0 = np.repeat(10.0, n)
  assignS 5 [.n] [.x0],
  -- cell 5: x0[1] += 0.05
  assignS 5 [.x0] [.x0],
  -- cell 5: discard = 150
  assignS 5 [] [.discard],
  -- cell 5: xtrue = lorenz96(x0, tf, deltat, discard, F)
  callS 5 .lorenz96 [.x0, .tf, .deltat, .discard, .F] [.xtrue],
  -- cell 5: plotL96(t, xtrue, n, 'Lorenz 96 system')
  plotS 5 .plotL96 [.t, .xtrue, .n],
  -- cell 7: n_sample=5000
  assignS 7 [] [.n_sample],
  -- cell 7: sample_t0 = np.random.multivariate_normal(np.zeros(n), np.eye(n), n_sample).T
  assignS 7 [.n, .n_sample] [.sample_t0],
  -- cell 7: lin_t = 100*deltat
  assignS 7 [.deltat] [.lin_t],
  -- cell 7: prop_sample = np.zeros((n,int(lin_t/deltat)+1,n_sample))
  assignS 7 [.n, .lin_t, .deltat, .n_sample] [.prop_sample],
  -- cell 7: for i in range(n_sample): prop_sample[:,:,i] = lorenz96(sample_t0[:,i], lin_t, deltat, 0, F)
  callS 7 .lorenz96 [.n_sample, .prop_sample, .sample_t0, .lin_t, .deltat, .F] [.prop_sample],
  -- cell 9: times = [20,30,40,50,60,70]
  assignS 9 [] [.times],
  -- cell 9: var1D = 5
  assignS 9 [] [.var1D],
  -- cell 9: plotUniDensities(times,prop_sample,var1D)
  plotS 9 .plotUniDensities [.times, .prop_sample, .var1D],
  -- cell 11: vars2D = [var1D,6]
  assignS 11 [.var1D] [.vars2D],
  -- cell 11: plotMultiDensities(times,prop_sample,vars2D)
  plotS 11 .plotMultiDensities [.times, .prop_sample, .vars2D],
  -- cell 13: Delta_x = np.ones(n,)
  assignS 13 [.n] [.Delta_x],
  -- cell 13: lin_error,NLdiff,TLdiff = compute_lin_error(Delta_x,xtrue[:,0], F, lin_t, deltat)
  callS 13 .compute_lin_error [.Delta_x, .xtrue, .F, .lin_t, .deltat] [.lin_error, .NLdiff, .TLdiff],
  -- cell 13: plotL96_Linerr(lin_error,NLdiff,TLdiff)
  plotS 13 .plotL96_Linerr [.lin_error, .NLdiff, .TLdiff],
  -- cell 16: lag = int(0.1/deltat)
  assignS 16 [.deltat] [.lag],
  -- cell 16: max_var = None
  assignS 16 [] [.max_var],
  -- cell 16: sample_size = 10000
  assignS 16 [] [.sample_size],
  -- cell 16: xB = lorenz96(x0, sample_size*deltat, deltat, discard, F)
  callS 16 .lorenz96 [.x0, .sample_size, .deltat, .discard, .F] [.xB],
  -- cell 16: B,Bcorr = getBcanadian(xB,lag,max_var,sample_size)
  callS 16 .getBcanadian [.xB, .lag, .max_var, .sample_size] [.B, .Bcorr],
  -- cell 16: mycmap = 'BrBG'
  assignS 16 [] [.mycmap],
  -- cell 16: vs = [-np.amax(np.diag(B)),np.amax(np.diag(B))]
  assignS 16 [.B] [.vs],
  -- cell 16: tileplotB(B,mycmap,vs)
  plotS 16 .tileplotB [.B, .mycmap, .vs],
  -- cell 20: from tools.plots import plotL96, plotL96obs, plotL96_Linerr, plotH, tileplotB
  importS 20,
  -- cell 20: obsgrid = '1010'
  assignS 20 [] [.obsgrid],
  -- cell 20: period_obs = 2
  assignS 20 [] [.period_obs],
  -- cell 20: var_obs = 2
  assignS 20 [] [.var_obs],
  -- cell 20: seed = 1
  assignS 20 [] [.seed],
  -- cell 20: footprint = 3
  assignS 20 [] [.footprint],
  -- cell 20: p, H = createH(obsgrid,n,footprint)
  callS 20 .createH [.obsgrid, .n, .footprint] [.p, .H],
  -- cell 20: plotH(H)
  plotS 20 .plotH [.H],
  -- cell 20: tobs, y, R = gen_obs(t, xtrue, period_obs, H, var_obs, seed)
  callS 20 .gen_obs [.t, .xtrue, .period_obs, .H, .var_obs, .seed] [.tobs, .y, .R],
  -- cell 20: plotL96obs(tobs, y, p, 'L96 observations')
  plotS 20 .plotL96obs [.tobs, .y, .p]]

/-- The tools-package module each imported function comes from, transcribed
from the notebook's import statements in cell 3. -/
def importModuleOf : PyFunc → String
  | .lorenz96 => "tools.L96_model"
  | .createH => "tools.obs"
  | .gen_obs => "tools.obs"
  | .getBcanadian => "tools.cov"
  | .compute_lin_error => "tools.diag"
  | _ => "tools.plots"

/-- The modules of the tools package named by the notebook's import lines. -/
def toolsModules : List String :=
  ["tools.L96_model", "tools.obs", "tools.cov", "tools.plots", "tools.diag"]

/-- Kind of an ipynb cell. -/
inductive CellKind
  | markdown
  | code
  deriving DecidableEq

/-- An ipynb cell: its kind and how many source lines it holds. -/
structure Cell where
  kind : CellKind
  srcLines : ℕ
  deriving DecidableEq

/-- The notebook's 23 cells in order, with their source line counts. -/
def notebookCells : List Cell :=
  [⟨.markdown, 2⟩, ⟨.code, 2⟩, ⟨.markdown, 11⟩, ⟨.code, 7⟩, ⟨.markdown, 11⟩,
   ⟨.code, 19⟩, ⟨.markdown, 5⟩, ⟨.code, 6⟩, ⟨.markdown, 1⟩, ⟨.code, 4⟩,
   ⟨.markdown, 1⟩, ⟨.code, 3⟩, ⟨.markdown, 13⟩, ⟨.code, 4⟩, ⟨.markdown, 4⟩,
   ⟨.markdown, 15⟩, ⟨.code, 10⟩, ⟨.markdown, 4⟩, ⟨.code, 0⟩, ⟨.markdown, 18⟩,
   ⟨.code, 20⟩, ⟨.markdown, 3⟩, ⟨.code, 0⟩]

/-- Line count of the raw Control_DA_components.ipynb JSON file. -/
def notebookFileLineCount : ℕ := 452

/-- Variables written by statements strictly before position k. -/
def writesBefore (k : ℕ) : List PyVar :=
  ((notebookStmts.take k).map Stmt.writes).flatten

/-- Every statement reads only variables written by earlier statements. -/
def readsInitialized : Bool :=
  notebookStmts.enum.all (fun ks =>
    ks.2.reads.all (fun v => (writesBefore ks.1).contains v))

/-- Index of the first statement writing variable v. -/
def firstWriteIdx (v : PyVar) : ℕ :=
  notebookStmts.findIdx (fun s => s.writes.contains v)

/-- Index of the first statement calling the tools function f. -/
def callIdx (f : PyFunc) : ℕ :=
  notebookStmts.findIdx (fun s => s.func == some f)

/-- The statements writing variable v. -/
def writersOf (v : PyVar) : List Stmt :=
  notebookStmts.filter (fun s => s.writes.contains v)

/-- Variables read by some statement that writes v. -/
def directDeps (v : PyVar) : List PyVar :=
  ((writersOf v).map Stmt.reads).flatten

/-- One expansion step of the dataflow dependency closure. -/
def depsStep (vs : List PyVar) : List PyVar :=
  (vs ++ (vs.map directDeps).flatten).dedup

/-- All variables the value of v transitively depends on (v included);
iterating one step per statement reaches the closure. -/
def deps (v : PyVar) : List PyVar :=
  depsStep^[notebookStmts.length] [v]

/-- A statement kind a pure numerical script is made of: a parameter
assignment, a call to an imported tools function, or a plotting call. -/
def StmtKind.isScript : StmtKind → Bool
  | .assign => true
  | .callAssign => true
  | .plotCall => true
  | _ => false

/-- Script statements together with import statements. -/
def StmtKind.isScriptOrImport : StmtKind → Bool
  | .importStmt => true
  | k => k.isScript

/-- The five numerical (non-plotting) tools functions. -/
def PyFunc.isNumerical : PyFunc → Bool
  | .lorenz96 => true
  | .createH => true
  | .gen_obs => true
  | .getBcanadian => true
  | .compute_lin_error => true
  | _ => false

/-- The distinct numerical tools functions the notebook calls. -/
def numericalCallsDistinct : List PyFunc :=
  ((notebookStmts.filterMap Stmt.func).filter PyFunc.isNumerical).dedup

/-- Number of adjacent cell pairs of differing kind, measuring how code and
markdown cells interleave. -/
def cellBoundaries : ℕ :=
  ((notebookCells.zip notebookCells.tail).filter
    (fun ab => !(ab.1.kind == ab.2.kind))).length

/-! Semantic values of the notebook's variables, cell by cell.  Decimal
literals of the source are written as exact rationals (0.025 = 1/40,
0.05 = 1/20). -/

namespace Notebook

/-- Cell 5: n = 12, the number of state variables. -/
def n : ℕ := 12

instance : NeZero n := ⟨by decide⟩

/-- Cell 5: F = 8.0, the forcing. -/
def F : ℚ := 8

/-- Cell 5: deltat = 0.025, the model time step. -/
def deltat : ℚ := 1 / 40

/-- Cell 5: tf = 5.0, the final simulation time. -/
def tf : ℚ := 5

/-- Cell 5: t = np.arange(0.0, tf+deltat/2, deltat). -/
def t : List ℚ := arange 0 (tf + deltat / 2) deltat

/-- Cell 5: x0 = np.repeat(10.0, n) followed by x0[1] += 0.05. -/
def x0 : Vec n := fun i => if (i : ℕ) = 1 then 10 + 1 / 20 else 10

/-- Cell 5: discard = 150 spin-up steps. -/
def discard : ℕ := 150

/-- Cell 5: xtrue = lorenz96(x0, tf, deltat, discard, F), the single truth
trajectory of the identical twin experiment. -/
def xtrue : ℕ → Vec n := lorenz96 x0 tf deltat discard F

/-- Cell 7: lin_t = 100*deltat. -/
def lin_t : ℚ := 100 * deltat

/-- Cell 13: Delta_x = np.ones(n,). -/
def Delta_x : Vec n := fun _ => 1

/-- Cell 13: lin_error, NLdiff, TLdiff = compute_lin_error(Delta_x, xtrue[:,0], F, lin_t, deltat). -/
noncomputable def linErrResult : (ℕ → ℝ) × (ℕ → Vec n) × (ℕ → Vec n) :=
  compute_lin_error Delta_x (xtrue 0) F lin_t deltat

/-- Cell 16: lag = int(0.1/deltat), Python's int() truncating toward zero. -/
def lag : ℕ := Int.toNat ⌊(1 / 10 : ℚ) / deltat⌋

/-- Cell 16: max_var = None. -/
def max_var : Option ℚ := none

/-- Cell 16: sample_size = 10000. -/
def sample_size : ℕ := 10000

/-- Cell 16: xB = lorenz96(x0, sample_size*deltat, deltat, discard, F), the
single long forecast run feeding the Canadian Quick estimate. -/
def xB : ℕ → Vec n := lorenz96 x0 ((sample_size : ℚ) * deltat) deltat discard F

/-- Cell 16: B, Bcorr = getBcanadian(xB, lag, max_var, sample_size). -/
noncomputable def Bpair : (Fin n → Fin n → ℝ) × (Fin n → Fin n → ℝ) :=
  getBcanadian xB lag max_var sample_size

/-- The estimated background-error covariance matrix B. -/
noncomputable def B : Fin n → Fin n → ℝ := Bpair.1

/-- The estimated background-error correlation matrix Bcorr. -/
noncomputable def Bcorr : Fin n → Fin n → ℝ := Bpair.2

/-- Cell 20: obsgrid = '1010'. -/
def obsgrid : Obsgrid := .g1010

/-- Cell 20: period_obs = 2 time steps between observations. -/
def period_obs : ℕ := 2

/-- Cell 20: var_obs = 2, the observation error variance. -/
def var_obs : ℚ := 2

/-- Cell 20: seed = 1, the random number seed. -/
def seed : ℕ := 1

/-- Cell 20: footprint = 3. -/
def footprint : ℕ := 3

/-- Cell 20: p, H = createH(obsgrid, n, footprint). -/
def pH : (p : ℕ) × (Fin p → Fin n → ℚ) := createH obsgrid n footprint

/-- The number of observations p. -/
def p : ℕ := pH.1

/-- The observation operator matrix H. -/
def H : Fin p → Fin n → ℚ := pH.2

/-- Cell 20: tobs, y, R = gen_obs(t, xtrue, period_obs, H, var_obs, seed). -/
def obsTriple : List ℚ × (ℕ → Fin p → ℚ) × (Fin p → Fin p → ℚ) :=
  gen_obs t xtrue period_obs H var_obs seed

/-- The observation times tobs. -/
def tobs : List ℚ := obsTriple.1

/-- The synthetic observations y. -/
def y : ℕ → Fin p → ℚ := obsTriple.2.1

/-- The observation-error covariance matrix R. -/
def R : Fin p → Fin p → ℚ := obsTriple.2.2

end Notebook

end DA

/-! Supporting lemmas shared by the claim theorems. -/

set_option maxRecDepth 8000

namespace DA

/-- The number of elements arange produces is ceil((stop - start) / step). -/
theorem arange_length (start stop step : ℚ) :
    (arange start stop step).length = Int.toNat ⌈(stop - start) / step⌉ := by
  simp [arange]

/-- Element i of an arange grid is start + i * step. -/
theorem arange_getElem? (start stop step : ℚ) (i : ℕ)
    (h : i < Int.toNat ⌈(stop - start) / step⌉) :
    (arange start stop step)[i]? = some (start + i * step) := by
  unfold arange
  rw [List.getElem?_map, List.getElem?_range h]
  rfl

/-- Element i of an arange grid, through getD. -/
theorem arange_getD (start stop step : ℚ) (i : ℕ)
    (h : i < Int.toNat ⌈(stop - start) / step⌉) :
    (arange start stop step).getD i 0 = start + i * step := by
  rw [List.getD_eq_getElem?_getD, arange_getElem? start stop step i h]
  rfl

/-- The ceiling entering the notebook's time-array length. -/
theorem ceil_401_half : ⌈(401 / 2 : ℚ)⌉ = 201 := by
  rw [Int.ceil_eq_iff]
  norm_num

/-- The argument of the ceiling in the notebook's time array. -/
theorem notebook_t_ratio :
    (Notebook.tf + Notebook.deltat / 2 - 0) / Notebook.deltat = 401 / 2 := by
  norm_num [Notebook.tf, Notebook.deltat]

/-- The notebook's time array asks arange for exactly 201 elements. -/
theorem notebook_t_card :
    Int.toNat ⌈(Notebook.tf + Notebook.deltat / 2 - 0) / Notebook.deltat⌉ = 201 := by
  rw [notebook_t_ratio, ceil_401_half]
  decide

/-- Element i of the notebook's time array is i * deltat. -/
theorem notebook_t_getD (i : ℕ) (h : i < 201) :
    Notebook.t.getD i 0 = (i : ℚ) * Notebook.deltat := by
  have h2 := arange_getD 0 (Notebook.tf + Notebook.deltat / 2) Notebook.deltat i
    (by rw [notebook_t_card]; exact h)
  rw [Notebook.t, h2]
  ring

end DA

/-! The claim theorems. -/

namespace DA

/-- Claim C4: the notebook executes a linear pipeline in the fixed order
integrate, perturb, estimate covariance, synthesize observations, plot: the
lorenz96 call producing xtrue is the first model run, it precedes the random
perturbation stage (sample_t0, prop_sample), which precedes the covariance
stage (the xB run and the getBcanadian call), which precedes the observation
synthesis (gen_obs), which precedes the final plotting call, the last statement
of the notebook; and every statement reads only variables written by earlier
statements, so no stage feeds back into an earlier one. -/
theorem claim_C4_pipeline_order :
    callIdx .lorenz96 = firstWriteIdx .xtrue
    ∧ firstWriteIdx .xtrue < firstWriteIdx .sample_t0
    ∧ firstWriteIdx .sample_t0 < firstWriteIdx .prop_sample
    ∧ firstWriteIdx .prop_sample < firstWriteIdx .xB
    ∧ firstWriteIdx .xB < callIdx .getBcanadian
    ∧ callIdx .getBcanadian < callIdx .gen_obs
    ∧ callIdx .gen_obs < callIdx .plotL96obs
    ∧ callIdx .plotL96obs + 1 = notebookStmts.length
    ∧ readsInitialized = true := by
  decide

/-- Claim C5 counterexample: the claim that the notebook consists only of
parameter assignments, calls to the tools imports, and plotting fails on the
very first statement, the shell escape running git clone, which is none of
these. -/
theorem claim_C5_counterexample :
    notebookStmts.getD 0 (importS 0) = shellS 1 true true
    ∧ (notebookStmts.getD 0 (importS 0)).kind = .shell
    ∧ notebookStmts.all (fun s => s.kind.isScript) = false := by
  decide

/-- Claim C5 (amended): every enumerated numerical operation (lorenz96,
createH, gen_obs, getBcanadian, compute_lin_error, and all plotting functions)
is imported from a module of the tools package; the notebook defines no
function; and apart from the two shell statements of the initial setup cell
(git clone and cd), every statement is an import, a parameter assignment, a
call assignment to a tools import, or a plotting call. -/
theorem claim_C5_tools_delegation :
    (∀ f : PyFunc, importModuleOf f ∈ toolsModules)
    ∧ notebookStmts.all (fun s => !(s.kind == .funcDef)) = true
    ∧ (notebookStmts.drop 2).all (fun s => s.kind.isScriptOrImport) = true
    ∧ notebookStmts.countP (fun s => s.kind == .shell) = 2 := by
  refine ⟨fun f => ?_, by decide, by decide, by decide⟩
  cases f <;> decide

/-- Claim C6 counterexample: the claim that the code cells consist of parameter
blocks, numerical function calls and plotting calls fails on code cell 1,
whose two statements are shell escapes. -/
theorem claim_C6_counterexample :
    (notebookStmts.filter (fun s => s.cell == 1)).map Stmt.kind = [.shell, .shell]
    ∧ (notebookStmts.filter (fun s => s.cell == 1)).all (fun s => s.kind.isScript)
        = false := by
  decide

/-- Claim C6 (amended): the artifact is a single 452-line file (under 500
lines) of 23 cells totalling 163 source lines, is single-threaded, calls
exactly the five distinct numerical functions lorenz96, createH, gen_obs,
getBcanadian and compute_lin_error, and, apart from the initial setup shell
cell and the import statements, its code statements are parameter assignments,
calls to these five functions, and plotting calls, with 12 markdown cells
interleaving the 11 code cells (21 of the 22 adjacent cell pairs alternate
kind). -/
theorem claim_C6_small_artifact :
    notebookFileLineCount = 452
    ∧ notebookFileLineCount < 500
    ∧ (notebookCells.map Cell.srcLines).sum = 163
    ∧ notebookStmts.all (fun s => !s.spawnsConcurrency) = true
    ∧ numericalCallsDistinct.length = 5
    ∧ numericalCallsDistinct.contains .lorenz96 = true
    ∧ numericalCallsDistinct.contains .createH = true
    ∧ numericalCallsDistinct.contains .gen_obs = true
    ∧ numericalCallsDistinct.contains .getBcanadian = true
    ∧ numericalCallsDistinct.contains .compute_lin_error = true
    ∧ (notebookStmts.drop 2).all (fun s => s.kind.isScriptOrImport) = true
    ∧ (notebookCells.filter (fun c => c.kind == .markdown)).length = 12
    ∧ (notebookCells.filter (fun c => c.kind == .code)).length = 11
    ∧ cellBoundaries = 21 := by
  decide

/-- Claim C7 counterexample: the claim that no cell communicates over a
network or modifies the file system fails on the notebook's first statement,
the git clone shell escape, which does both. -/
theorem claim_C7_counterexample :
    (notebookStmts.getD 0 (importS 0)).usesNetwork = true
    ∧ (notebookStmts.getD 0 (importS 0)).writesFilesystem = true
    ∧ notebookStmts.all (fun s => !s.usesNetwork && !s.writesFilesystem)
        = false := by
  decide

/-- Claim C7 (amended): apart from the initial git-clone shell escape, no
statement of the notebook communicates over a network or modifies the file
system, and no statement at all uses concurrency or failure-recovery
constructs. -/
theorem claim_C7_no_effects_after_setup :
    (notebookStmts.drop 1).all (fun s => !s.usesNetwork && !s.writesFilesystem)
        = true
    ∧ notebookStmts.all (fun s => !s.spawnsConcurrency && !s.handlesFailures)
        = true := by
  decide

end DA

namespace DA

/-- Claim C1: B is estimated by the Canadian Quick method from time-lagged
differences of a single long forecast run: the lag is int(0.1/deltat) = 4
steps and sample_size is 10000; xB is produced by exactly one lorenz96 call
and is the single long forecast trajectory passed to getBcanadian; the
returned B is the sample covariance of the lagged differences
(x(t+T) - x(t))/sqrt 2 of xB and Bcorr the derived correlation matrix; and in
the notebook's dataflow B depends on no other model run, neither xtrue nor
prop_sample. -/
theorem claim_C1_canadian_quick_single_run :
    Notebook.lag = Int.toNat ⌊(1 / 10 : ℚ) / Notebook.deltat⌋
    ∧ Notebook.lag = 4
    ∧ Notebook.sample_size = 10000
    ∧ Notebook.xB = lorenz96 Notebook.x0 ((Notebook.sample_size : ℚ) * Notebook.deltat)
        Notebook.deltat Notebook.discard Notebook.F
    ∧ (∀ i j, Notebook.B i j = sampleCov Notebook.sample_size
        (fun k i2 => ((Notebook.xB (k + Notebook.lag) i2 - Notebook.xB k i2 : ℚ) : ℝ)
          / Real.sqrt 2) i j)
    ∧ (∀ i j, Notebook.Bcorr i j
        = Notebook.B i j / Real.sqrt (Notebook.B i i * Notebook.B j j))
    ∧ notebookStmts.countP
        (fun s => s.func == some .lorenz96 && s.writes.contains .xB) = 1
    ∧ writersOf .B
        = [callS 16 .getBcanadian [.xB, .lag, .max_var, .sample_size] [.B, .Bcorr]]
    ∧ (deps .B).contains .xB = true
    ∧ (deps .B).contains .xtrue = false
    ∧ (deps .B).contains .prop_sample = false := by
  refine ⟨rfl, ?_, rfl, rfl, fun i j => rfl, fun i j => rfl,
    by decide, by decide, by decide, by decide, by decide⟩
  show Int.toNat ⌊(1 / 10 : ℚ) / Notebook.deltat⌋ = 4
  have h : (1 / 10 : ℚ) / Notebook.deltat = 4 := by norm_num [Notebook.deltat]
  have h2 : ⌊(4 : ℚ)⌋ = 4 := by norm_num
  rw [h, h2]
  decide

/-- Claim C3: the experiment is an identical twin experiment: xtrue is the
output of the single lorenz96 truth integration, the observations y are the
output of gen_obs applied to that same xtrue (each observation is H applied to
a state of xtrue plus seeded noise), and in the notebook's dataflow the sole
writer of xtrue is the lorenz96 call, the sole writer of y is the gen_obs call
reading xtrue, and y transitively depends on xtrue. -/
theorem claim_C3_identical_twin :
    Notebook.xtrue
        = lorenz96 Notebook.x0 Notebook.tf Notebook.deltat Notebook.discard Notebook.F
    ∧ Notebook.y = (gen_obs Notebook.t Notebook.xtrue Notebook.period_obs
        Notebook.H Notebook.var_obs Notebook.seed).2.1
    ∧ (∀ k j, Notebook.y k j
        = (∑ i, Notebook.H j i * Notebook.xtrue
            ((obsIndices Notebook.t.length Notebook.period_obs).getD k 0) i)
          + noiseSample Notebook.seed (k * Notebook.p + (j : ℕ)) Notebook.var_obs)
    ∧ writersOf .xtrue = [callS 5 .lorenz96 [.x0, .tf, .deltat, .discard, .F] [.xtrue]]
    ∧ writersOf .y
        = [callS 20 .gen_obs [.t, .xtrue, .period_obs, .H, .var_obs, .seed]
            [.tobs, .y, .R]]
    ∧ (deps .y).contains .xtrue = true :=
  ⟨rfl, rfl, fun k j => rfl, by decide, by decide, by decide⟩

/-- Claim C8: createH accepts exactly the five obsgrid options and returns,
for an n-variable state, p = n observations for 'all', p = n/2 for '1010' and
for 'landsea', p = 1 for 'foot_cent' and p = 6 for 'foot_6' (p = 6 in the
notebook's configuration), and the single matrix H so returned is used
unchanged by gen_obs at every observation time: every observation k applies
the same H to the truth state at time index k. -/
theorem claim_C8_obs_operators :
    (∀ og : Obsgrid, og = .all ∨ og = .g1010 ∨ og = .landsea
      ∨ og = .foot_cent ∨ og = .foot_6)
    ∧ (∀ n fp : ℕ, (createH .all n fp).1 = n
        ∧ (createH .g1010 n fp).1 = n / 2
        ∧ (createH .landsea n fp).1 = n / 2
        ∧ (createH .foot_cent n fp).1 = 1
        ∧ (createH .foot_6 n fp).1 = 6)
    ∧ Notebook.p = 6
    ∧ (∀ (n p : ℕ) (t : List ℚ) (xtr : ℕ → Vec n) (per : ℕ)
        (H : Fin p → Fin n → ℚ) (var : ℚ) (sd : ℕ) (k : ℕ) (j : Fin p),
        (gen_obs t xtr per H var sd).2.1 k j
          = (∑ i, H j i * xtr ((obsIndices t.length per).getD k 0) i)
            + noiseSample sd (k * p + (j : ℕ)) var) :=
  ⟨fun og => by cases og <;> simp,
   fun n fp => ⟨rfl, rfl, rfl, rfl, rfl⟩,
   rfl,
   fun n p t xtr per H var sd k j => rfl⟩

end DA

namespace DA

/-- Claim C2: for every time step k in [0, lin_t/deltat] and every initial
state x and increment Delta_x, the lin_error component returned by
compute_lin_error equals the L2 norm of NL(x + Delta_x, k) - NL(x, k) -
TL(Delta_x, k), the returned NLdiff is the evolved difference of the two
nonlinear lorenz96 runs initially separated by Delta_x, and the returned
TLdiff is the tangent-linear model applied to Delta_x. -/
theorem claim_C2_lin_error_is_norm {n : ℕ} [NeZero n] (Delta_x x : Vec n)
    (F lin_t deltat : ℚ) (k : ℕ) (hk : k ≤ natSteps lin_t deltat) :
    (compute_lin_error Delta_x x F lin_t deltat).1 k
      = l2norm (fun i => lorenz96 (fun j => x j + Delta_x j) lin_t deltat 0 F k i
          - lorenz96 x lin_t deltat 0 F k i - tlTraj x Delta_x F deltat k i)
    ∧ (compute_lin_error Delta_x x F lin_t deltat).2.1 k
      = (fun i => lorenz96 (fun j => x j + Delta_x j) lin_t deltat 0 F k i
          - lorenz96 x lin_t deltat 0 F k i)
    ∧ (compute_lin_error Delta_x x F lin_t deltat).2.2 k
      = tlTraj x Delta_x F deltat k :=
  ⟨rfl, rfl, rfl⟩

/-- Witness for claim C2: the theorem applied at n = 1, x = 0, Delta_x = 1,
F = 0, lin_t = deltat = 1, time step k = 0. -/
theorem claim_C2_witness :
    0 ≤ natSteps 1 1
    ∧ ((compute_lin_error (fun _ : Fin 1 => (1 : ℚ)) (fun _ : Fin 1 => (0 : ℚ)) 0 1 1).1 0
        = l2norm (fun i : Fin 1 =>
            lorenz96 (fun _ : Fin 1 => (0 : ℚ) + 1) 1 1 0 0 0 i
            - lorenz96 (fun _ : Fin 1 => (0 : ℚ)) 1 1 0 0 0 i
            - tlTraj (fun _ : Fin 1 => (0 : ℚ)) (fun _ : Fin 1 => (1 : ℚ)) 0 1 0 i)
      ∧ (compute_lin_error (fun _ : Fin 1 => (1 : ℚ)) (fun _ : Fin 1 => (0 : ℚ)) 0 1 1).2.1 0
        = (fun i : Fin 1 =>
            lorenz96 (fun _ : Fin 1 => (0 : ℚ) + 1) 1 1 0 0 0 i
            - lorenz96 (fun _ : Fin 1 => (0 : ℚ)) 1 1 0 0 0 i)
      ∧ (compute_lin_error (fun _ : Fin 1 => (1 : ℚ)) (fun _ : Fin 1 => (0 : ℚ)) 0 1 1).2.2 0
        = tlTraj (fun _ : Fin 1 => (0 : ℚ)) (fun _ : Fin 1 => (1 : ℚ)) 0 1 0) :=
  ⟨Nat.zero_le _,
   claim_C2_lin_error_is_norm (fun _ : Fin 1 => (1 : ℚ)) (fun _ : Fin 1 => (0 : ℚ))
     0 1 1 0 (Nat.zero_le _)⟩

/-- Claim C9: observation generation is deterministic in the random seed: the
notebook fixes seed = 1, and any two evaluations of gen_obs with identical
arguments (the same t, xtrue, period_obs, H, var_obs and equal seeds) produce
identical observation times tobs, observations y and observation-error
covariance R. -/
theorem claim_C9_gen_obs_deterministic {n p : ℕ} (t : List ℚ) (xtr : ℕ → Vec n)
    (per : ℕ) (H : Fin p → Fin n → ℚ) (var : ℚ) (s1 s2 : ℕ) (h : s1 = s2) :
    Notebook.seed = 1
    ∧ (gen_obs t xtr per H var s1).1 = (gen_obs t xtr per H var s2).1
    ∧ (gen_obs t xtr per H var s1).2.1 = (gen_obs t xtr per H var s2).2.1
    ∧ (gen_obs t xtr per H var s1).2.2 = (gen_obs t xtr per H var s2).2.2 := by
  subst h
  exact ⟨rfl, rfl, rfl, rfl⟩

/-- Witness for claim C9: the theorem applied at the notebook's own arguments
with the seed 1 on both sides. -/
theorem claim_C9_witness :
    (1 : ℕ) = 1
    ∧ (Notebook.seed = 1
      ∧ (gen_obs Notebook.t Notebook.xtrue Notebook.period_obs Notebook.H
          Notebook.var_obs 1).1
        = (gen_obs Notebook.t Notebook.xtrue Notebook.period_obs Notebook.H
          Notebook.var_obs 1).1
      ∧ (gen_obs Notebook.t Notebook.xtrue Notebook.period_obs Notebook.H
          Notebook.var_obs 1).2.1
        = (gen_obs Notebook.t Notebook.xtrue Notebook.period_obs Notebook.H
          Notebook.var_obs 1).2.1
      ∧ (gen_obs Notebook.t Notebook.xtrue Notebook.period_obs Notebook.H
          Notebook.var_obs 1).2.2
        = (gen_obs Notebook.t Notebook.xtrue Notebook.period_obs Notebook.H
          Notebook.var_obs 1).2.2) :=
  ⟨rfl, claim_C9_gen_obs_deterministic Notebook.t Notebook.xtrue
    Notebook.period_obs Notebook.H Notebook.var_obs 1 1 rfl⟩

/-- Claim C10: with tf = 5.0 and deltat = 0.025 the time array
t = np.arange(0.0, tf + deltat/2, deltat) holds exactly 201 values, starts at
0.0, has uniform spacing deltat, and its last element equals tf, so the final
simulation time is included despite arange's half-open upper bound. -/
theorem claim_C10_time_grid :
    Notebook.t = arange 0 (Notebook.tf + Notebook.deltat / 2) Notebook.deltat
    ∧ Notebook.t.length = 201
    ∧ Notebook.t.getD 0 0 = 0
    ∧ (∀ i : ℕ, i + 1 < 201 →
        Notebook.t.getD (i + 1) 0 - Notebook.t.getD i 0 = Notebook.deltat)
    ∧ Notebook.t.getLast? = some Notebook.tf := by
  refine ⟨rfl, ?_, ?_, ?_, ?_⟩
  · rw [Notebook.t, arange_length, notebook_t_card]
  · rw [notebook_t_getD 0 (by norm_num)]
    norm_num
  · intro i h
    rw [notebook_t_getD (i + 1) h, notebook_t_getD i (by omega)]
    push_cast
    ring
  · have hlen : Notebook.t.length = 201 := by
      rw [Notebook.t, arange_length, notebook_t_card]
    have h200 : (201 : ℕ) - 1 = 200 := rfl
    rw [List.getLast?_eq_getElem?, hlen, h200, Notebook.t,
      arange_getElem? _ _ _ 200 (by rw [notebook_t_card]; norm_num)]
    norm_num [Notebook.tf, Notebook.deltat]

/-- Witness for claim C10: the uniform-spacing component of the theorem
applied at the first pair of grid points. -/
theorem claim_C10_witness :
    0 + 1 < 201
    ∧ Notebook.t.getD (0 + 1) 0 - Notebook.t.getD 0 0 = Notebook.deltat :=
  ⟨by decide, claim_C10_time_grid.2.2.2.1 0 (by decide)⟩

end DA
